import Mathlib

/-!
Shallow embedding of the attendance engine of `Calculate_working_hours.py`.

Conventions of the embedding:
* Python strings are modelled as `List Char`; `"s".data` denotes the literal.
* A pandas cell that may be NaN is modelled as `Option (List Char)` (`none` = NaN);
  Python's `str(...)` applied to such a cell is `pyStr` (`str(nan) = "nan"`).
* `datetime.time` values are minutes since midnight (`Nat`).
* A Python function that may raise is modelled with an `Option` result
  (`none` = the call raises and the enclosing `analyze_attendance` aborts).
* `datetime.date` is `Date`, a count of days since a fixed Monday epoch, so that
  `Date.weekday` matches Python's `date.weekday()` (Monday = 0 … Sunday = 6).
-/

/-- Calendar date: number of days since a fixed Monday (e.g. 2024-01-01). -/
structure Date where
  day : Nat
deriving DecidableEq, Repr

/-- Python `date.weekday()`: Monday = 0 … Sunday = 6. -/
def Date.weekday (d : Date) : Nat := d.day % 7

/-- Value of an ASCII decimal digit, `none` otherwise (the `\d` atom of `strptime`). -/
def digitVal (c : Char) : Option Nat :=
  if 48 ≤ c.toNat ∧ c.toNat ≤ 57 then some (c.toNat - 48) else none

/-- Accumulating decimal reading of a digit string; `none` on any non-digit. -/
def digitsAux : List Char → Nat → Option Nat
  | [], acc => some acc
  | c :: rest, acc =>
    match digitVal c with
    | some d => digitsAux rest (acc * 10 + d)
    | none => none

/-- Numeric value of a non-empty all-digit string, else `none`. -/
def digitsVal (l : List Char) : Option Nat :=
  if l.isEmpty then none else digitsAux l 0

/-- Split a character string at every colon (the field structure `strptime`
imposes for the format `%H:%M`). -/
def splitColon : List Char → List (List Char)
  | [] => [[]]
  | c :: rest =>
    if c = ':' then [] :: splitColon rest
    else
      match splitColon rest with
      | [] => [[c]]
      | p :: ps => (c :: p) :: ps

/-- Occurrence test for the next-day marker `次日`, Python's `"次日" in end_time`. -/
def hasMarker : List Char → Bool
  | '次' :: '日' :: _ => true
  | _ :: rest => hasMarker rest
  | [] => false

/-- Removal of every occurrence of `次日`, Python's `time_str.replace("次日", "")`. -/
def stripMarker : List Char → List Char
  | '次' :: '日' :: rest => stripMarker rest
  | c :: rest => c :: stripMarker rest
  | [] => []

/-- Python `str(cell)` on a possibly-NaN cell: `str(nan)` is the string `"nan"`. -/
def pyStr : Option (List Char) → List Char
  | some s => s
  | none => "nan".data

/-- The exact string label `"正常"` ("normal" day status). -/
def NORMAL : List Char := "正常".data

/-- The exact string label `"2次"` ("two punches"). -/
def TWICE : List Char := "2次".data

namespace TimeConfig

/-- `WORK_START = time(8, 30)` in minutes since midnight. -/
def WORK_START : Nat := 8 * 60 + 30

/-- `WORK_LATE = time(9, 30)` in minutes since midnight. -/
def WORK_LATE : Nat := 9 * 60 + 30

/-- `WORK_END_FLEX = time(18, 30)` in minutes since midnight. -/
def WORK_END_FLEX : Nat := 18 * 60 + 30

/-- `STANDARD_WORK_MINUTES = 570` (9.5 hours). -/
def STANDARD_WORK_MINUTES : Int := 570

/-- `OVERTIME_WORK_MINUTES = 600` (10 hours). -/
def OVERTIME_WORK_MINUTES : Int := 600

end TimeConfig

namespace TimeParser

/-- `TimeParser.parse_time`: `datetime.strptime(time_str, "%H:%M").time()`, as minutes
since midnight; `none` models the `ValueError` path (caught by the caller there).
`strptime "%H:%M"` accepts exactly `H:M` with 1–2 digit fields, hour ≤ 23,
minute ≤ 59, and the whole string consumed. -/
def parse_time (s : List Char) : Option Nat :=
  match splitColon s with
  | [h, m] =>
    match digitsVal h, digitsVal m with
    | some hh, some mm =>
      if h.length ≤ 2 ∧ hh ≤ 23 ∧ m.length ≤ 2 ∧ mm ≤ 59 then some (hh * 60 + mm)
      else none
    | _, _ => none
  | _ => none

/-- `TimeParser.parse_next_day_time`: strip the `次日` marker, parse the rest as
`%H:%M`, and return `hour * 60 + minute`; `none` models the uncaught
`ValueError` of `strptime`. -/
def parse_next_day_time (s : List Char) : Option Nat :=
  parse_time (stripMarker s)

/-- `TimeParser.compute_minutes`: signed minute difference `end − start` of two
same-day `%H:%M` strings; `none` models the uncaught `ValueError`. -/
def compute_minutes (start_time end_time : List Char) : Option Int :=
  match parse_time start_time, parse_time end_time with
  | some a, some b => some ((b : Int) - (a : Int))
  | _, _ => none

end TimeParser

/-- `HolidayCalendar` in-memory state: the set of designated holidays and the set
of designated compensatory workdays (both loaded by the persistence plumbing,
which is outside the analysis path). Modelled as lists of dates. -/
structure HolidayCalendar where
  holidays : List Date
  workdays : List Date
deriving DecidableEq, Repr

/-- `HolidayCalendar.is_workday`: holidays are never workdays; compensatory dates
always are; otherwise weekday (Mon–Fri) decides. -/
def HolidayCalendar.is_workday (cal : HolidayCalendar) (date_obj : Date) : Bool :=
  if date_obj ∈ cal.holidays then false
  else if date_obj ∈ cal.workdays then true
  else decide (date_obj.weekday < 5)

/-- One attendance row as consumed by the analyzer: the parsed record date plus
the four raw cells `row[1]` (first punch), `row[2]` (last punch), `row[3]`
(punch-count label), `row[4]` (day-status label); `none` is a NaN cell. -/
structure PunchRecord where
  dateObj : Date
  startTime : Option (List Char)
  endTime : Option (List Char)
  punchCount : Option (List Char)
  workStatus : Option (List Char)
deriving DecidableEq, Repr

/-- Result triple of `AttendanceAnalyzer._process_record`:
`(overtime, is_late, missing)`. -/
structure Outcome where
  overtime : Int
  late : Bool
  missing : Option Date
deriving DecidableEq, Repr

namespace AttendanceAnalyzer

/-- `AttendanceAnalyzer._is_before_time`: `parse_time(s)` succeeds and the parsed
time is ≤ `target`; a failed parse is falsy (`None`) in Python. -/
def is_before_time (time_str : List Char) (target : Nat) : Bool :=
  match TimeParser.parse_time time_str with
  | some t => decide (t ≤ target)
  | none => false

/-- `AttendanceAnalyzer._is_late`: parsed time strictly after `WORK_START` (08:30)
and at-or-before `WORK_LATE` (09:30); a failed parse is falsy. -/
def is_late (time_str : List Char) : Bool :=
  match TimeParser.parse_time time_str with
  | some t => decide (TimeConfig.WORK_START < t ∧ t ≤ TimeConfig.WORK_LATE)
  | none => false

/-- `AttendanceAnalyzer._calculate_overtime`. Non-workdays return 0 outright.
With the `次日` marker: `parse_next_day_time(end) + 1 + compute_minutes(start,
"23:59") − 600`. Otherwise, an end at-or-before 18:30 is normalized to 18:00
against the 570-minute baseline, and a later end counts in full against the
600-minute baseline. `none` models an uncaught `ValueError` of `strptime`. -/
def calculate_overtime (start_time end_time : List Char) (is_workday : Bool) :
    Option Int :=
  if is_workday = false then some 0
  else if hasMarker end_time then
    match TimeParser.parse_next_day_time end_time,
        TimeParser.compute_minutes start_time "23:59".data with
    | some nd, some cm => some ((nd : Int) + 1 + cm - TimeConfig.OVERTIME_WORK_MINUTES)
    | _, _ => none
  else if is_before_time end_time TimeConfig.WORK_END_FLEX then
    match TimeParser.compute_minutes start_time "18:00".data with
    | some cm => some (cm - TimeConfig.STANDARD_WORK_MINUTES)
    | none => none
  else
    match TimeParser.compute_minutes start_time end_time with
    | some cm => some (cm - TimeConfig.OVERTIME_WORK_MINUTES)
    | none => none

/-- In-progress guard of `_process_record`, the source's `end_time == start_time`:
the stringified `row[2]` compared with the raw `row[1]` cell, so a NaN start
never matches (a Python string never equals the float NaN). -/
def in_progress_guard (r : PunchRecord) : Bool :=
  match r.startTime with
  | some s => pyStr r.endTime == s
  | none => false

/-- `AttendanceAnalyzer._process_record`. Note two stringification effects of the
source's `end_time = str(row[2])`: the in-progress guard compares that string
with the raw `row[1]` cell (a NaN start never matches), and the later
`pd.isna(end_time)` test in the source can never fire (a string is not NaN),
so only the `pd.isna(start_time)` half of that check is live. `none` models an
exception escaping the record loop and aborting the analysis. -/
def process_record (cal : HolidayCalendar) (today : Date) (r : PunchRecord) :
    Option Outcome :=
  let is_workday := cal.is_workday r.dateObj
  let end_time := pyStr r.endTime
  if in_progress_guard r then
    some ⟨0, false, none⟩
  else if (r.workStatus != some NORMAL) ||
      (r.punchCount.isSome && (r.punchCount != some TWICE)) then
    some ⟨0, false, if r.dateObj = today then none else some r.dateObj⟩
  else if r.startTime.isNone then
    some ⟨0, false, if r.dateObj = today then none else some r.dateObj⟩
  else
    match calculate_overtime (pyStr r.startTime) end_time is_workday with
    | some ot =>
      some ⟨ot, if is_workday then is_late (pyStr r.startTime) else false, none⟩
    | none => none

/-- Running totals of the record loop of `analyze_attendance`. -/
structure Totals where
  total_overtime : Int
  late_count : Nat
  valid_days : Nat
  missing_clockout : List Date
deriving DecidableEq, Repr

/-- Totals before the first record. -/
def initTotals : Totals := ⟨0, 0, 0, []⟩

/-- `has_actual_punch`: both punch cells non-NaN and their `str(...)` forms differ. -/
def has_actual_punch (r : PunchRecord) : Bool :=
  r.startTime.isSome && r.endTime.isSome && (pyStr r.startTime != pyStr r.endTime)

/-- Valid-punch-day test of the loop body: punch-count label is exactly `"2次"`,
and the date is a workday, or is a non-workday with a genuine two-punch span. -/
def valid_day_credit (cal : HolidayCalendar) (r : PunchRecord) : Bool :=
  (r.punchCount == some TWICE) &&
    (cal.is_workday r.dateObj || (!cal.is_workday r.dateObj && has_actual_punch r))

/-- One iteration of the record loop of `analyze_attendance`: credit the valid-day
counter, process the record, and accumulate overtime and lateness only on
workdays while collecting missing dates from every row. -/
def analyze_step (cal : HolidayCalendar) (today : Date) (acc : Totals)
    (r : PunchRecord) : Option Totals :=
  let is_workday := cal.is_workday r.dateObj
  let valid_inc : Nat := if valid_day_credit cal r then 1 else 0
  match process_record cal today r with
  | none => none
  | some o =>
    some ⟨acc.total_overtime + (if is_workday then o.overtime else 0),
      acc.late_count + (if is_workday && o.late then 1 else 0),
      acc.valid_days + valid_inc,
      acc.missing_clockout ++ (match o.missing with | some d => [d] | none => [])⟩

/-- The record loop itself, threading the totals; a raising row aborts the call. -/
def analyze_rows (cal : HolidayCalendar) (today : Date) :
    Totals → List PunchRecord → Option Totals
  | acc, [] => some acc
  | acc, r :: rs =>
    match analyze_step cal today acc r with
    | none => none
    | some acc2 => analyze_rows cal today acc2 rs

/-- Analysis output fields the engine computes (name, month and the date range are
copied from the input frame; `overtime_hours` is `total_overtime_minutes / 60`,
a presentation step kept in minutes here). -/
structure AttendanceResult where
  total_overtime_minutes : Int
  missing_clockout_dates : List Date
  late_count : Nat
  valid_days : Nat
deriving DecidableEq, Repr

/-- Descending date order used for `missing_clockout.sort(reverse=True)`. -/
def dateGE (a b : Date) : Prop := b.day ≤ a.day

instance : DecidableRel dateGE := fun a b => Nat.decLe b.day a.day

instance : IsTotal Date dateGE := ⟨fun a b => Nat.le_total b.day a.day⟩

instance : IsTrans Date dateGE := ⟨fun _ _ _ hab hbc => Nat.le_trans hbc hab⟩

/-- `AttendanceAnalyzer.analyze_attendance`, record-loop part: fold the rows from
`initTotals`, then sort the collected missing dates in descending order
(`list.sort(reverse=True)`, modelled by a stable insertion sort). An empty
record set raises while reading the first date, hence `none`. -/
def analyze_attendance (cal : HolidayCalendar) (today : Date)
    (records : List PunchRecord) : Option AttendanceResult :=
  if records.isEmpty then none
  else
    match analyze_rows cal today initTotals records with
    | none => none
    | some t =>
      some ⟨t.total_overtime, t.missing_clockout.insertionSort dateGE,
        t.late_count, t.valid_days⟩

end AttendanceAnalyzer

open AttendanceAnalyzer

/-! Shared evaluation facts and helper lemmas about the record classifier. -/

theorem parse_time_2359 :
    TimeParser.parse_time ['2', '3', ':', '5', '9'] = some 1439 := by decide

theorem parse_time_1800 :
    TimeParser.parse_time ['1', '8', ':', '0', '0'] = some 1080 := by decide

/-- Next-day branch of `_calculate_overtime` on a workday, in closed form. -/
theorem calculate_overtime_marker (start_time end_time : List Char) (s nd : Nat)
    (hs : TimeParser.parse_time start_time = some s)
    (hm : hasMarker end_time = true)
    (hnd : TimeParser.parse_next_day_time end_time = some nd) :
    calculate_overtime start_time end_time true =
      some ((nd : Int) + 1 + (1439 - (s : Int)) - 600) := by
  unfold calculate_overtime
  simp [hm, hnd, TimeParser.compute_minutes, hs, parse_time_2359,
    TimeConfig.OVERTIME_WORK_MINUTES]

/-- Flexible-dinner branch (clock-out at or before 18:30) of `_calculate_overtime`
on a workday: the end is normalized to 18:00 against the 570-minute baseline. -/
theorem calculate_overtime_flex (start_time end_time : List Char) (s t : Nat)
    (hs : TimeParser.parse_time start_time = some s)
    (hm : hasMarker end_time = false)
    (ht : TimeParser.parse_time end_time = some t) (hle : t ≤ 1110) :
    calculate_overtime start_time end_time true =
      some (1080 - (s : Int) - 570) := by
  unfold calculate_overtime
  simp [hm, is_before_time, ht, TimeConfig.WORK_END_FLEX, hle,
    TimeParser.compute_minutes, hs, parse_time_1800, TimeConfig.STANDARD_WORK_MINUTES]

/-- Late branch (clock-out after 18:30) of `_calculate_overtime` on a workday:
the full span counts against the 600-minute baseline. -/
theorem calculate_overtime_after (start_time end_time : List Char) (s t : Nat)
    (hs : TimeParser.parse_time start_time = some s)
    (hm : hasMarker end_time = false)
    (ht : TimeParser.parse_time end_time = some t) (hgt : 1110 < t) :
    calculate_overtime start_time end_time true =
      some ((t : Int) - (s : Int) - 600) := by
  unfold calculate_overtime
  simp [hm, is_before_time, ht, TimeConfig.WORK_END_FLEX, Nat.not_le_of_lt hgt,
    TimeParser.compute_minutes, hs, TimeConfig.OVERTIME_WORK_MINUTES]

/-- A record whose stringified last punch equals its raw first punch is classified
as in progress, regardless of every other field. -/
theorem process_record_in_progress (cal : HolidayCalendar) (today : Date)
    (r : PunchRecord) (s : List Char) (hs : r.startTime = some s)
    (he : pyStr r.endTime = s) :
    process_record cal today r = some ⟨0, false, none⟩ := by
  unfold process_record
  simp [in_progress_guard, hs, he]

/-- A missing date emitted by `_process_record` is never the current date. -/
theorem process_record_missing_ne_today (cal : HolidayCalendar) (today : Date)
    (r : PunchRecord) (o : Outcome) (h : process_record cal today r = some o)
    (d : Date) (hd : o.missing = some d) : d ≠ today := by
  simp only [process_record] at h
  split at h
  · injection h with h; subst h; simp at hd
  · split at h
    · injection h with h; subst h
      simp only at hd
      split at hd
      · exact absurd hd (by simp)
      · injection hd with hd; subst hd; assumption
    · split at h
      · injection h with h; subst h
        simp only at hd
        split at hd
        · exact absurd hd (by simp)
        · injection hd with hd; subst hd; assumption
      · split at h
        · injection h with h; subst h; simp at hd
        · exact absurd h (by simp)

/-- One loop step never adds the current date to the missing list. -/
theorem analyze_step_no_today (cal : HolidayCalendar) (today : Date) (acc : Totals)
    (r : PunchRecord) (acc2 : Totals) (h : analyze_step cal today acc r = some acc2)
    (hacc : today ∉ acc.missing_clockout) : today ∉ acc2.missing_clockout := by
  simp only [analyze_step] at h
  split at h
  · exact absurd h (by simp)
  · rename_i o ho
    injection h with h; subst h
    simp only [List.mem_append, not_or]
    refine ⟨hacc, ?_⟩
    cases hm : o.missing with
    | none => simp [hm]
    | some d =>
      simp only [hm, List.mem_singleton]
      exact fun hdt => process_record_missing_ne_today cal today r o ho d hm hdt.symm

/-- The record loop never adds the current date to the missing list. -/
theorem analyze_rows_no_today (cal : HolidayCalendar) (today : Date) :
    ∀ (rs : List PunchRecord) (acc t : Totals),
      analyze_rows cal today acc rs = some t →
      today ∉ acc.missing_clockout → today ∉ t.missing_clockout := by
  intro rs
  induction rs with
  | nil =>
    intro acc t h hacc
    simp only [analyze_rows] at h
    injection h with h; subst h
    exact hacc
  | cons r rs ih =>
    intro acc t h hacc
    simp only [analyze_rows] at h
    split at h
    · exact absurd h (by simp)
    · rename_i acc2 hstep
      exact ih acc2 t h (analyze_step_no_today cal today acc r acc2 hstep hacc)

/-! Concrete calendars, records and totals used by the witnesses. -/

/-- Empty calendar: classification degrades to weekday-only. -/
def calE : HolidayCalendar := ⟨[], []⟩

/-- Calendar declaring day 0 a holiday and day 5 (a Saturday) compensatory. -/
def calW : HolidayCalendar := ⟨[⟨0⟩], [⟨5⟩]⟩

/-- Workday record with identical punch strings and otherwise abnormal labels. -/
def recE : PunchRecord :=
  ⟨⟨63⟩, some "08:30".data, some "08:30".data, some "1次".data, some "旷工".data⟩

/-- Workday record with a normal status, an absent punch-count cell, a present
first punch and an absent (NaN) last punch. -/
def recC2 : PunchRecord := ⟨⟨63⟩, some "08:30".data, none, none, some NORMAL⟩

/-- Saturday record (day 68, weekday 5) with a genuine 09:00–13:00 span. -/
def recD : PunchRecord :=
  ⟨⟨68⟩, some "09:00".data, some "13:00".data, some TWICE, some NORMAL⟩

/-- Totals after processing `recD` from `initTotals`. -/
def totalsD : Totals := ⟨0, 0, 1, []⟩

/-- Workday record with the two-punch label whose punch strings are identical. -/
def recP : PunchRecord :=
  ⟨⟨63⟩, some "08:30".data, some "08:30".data, some TWICE, some NORMAL⟩

/-- Workday record with a late 08:40 arrival and a 19:00 clock-out. -/
def recL : PunchRecord :=
  ⟨⟨63⟩, some "08:40".data, some "19:00".data, some TWICE, some NORMAL⟩

/-- Record set producing one overtime row, one late arrival and two missing dates. -/
def recsC4 : List PunchRecord :=
  [⟨⟨63⟩, some "08:40".data, some "20:00".data, some TWICE, some NORMAL⟩,
   ⟨⟨64⟩, some "08:00".data, none, some "1次".data, some NORMAL⟩,
   ⟨⟨66⟩, none, none, none, some "休".data⟩]

/-- Analysis result of `recsC4` relative to `calE` and today = day 200. -/
def resC4 : AttendanceResult := ⟨80, [⟨66⟩, ⟨64⟩], 1, 1⟩

/-! Claim theorems. -/

/-- Claim C1: on a workday with a parseable clock-in (value `s` minutes), the
overtime of `_calculate_overtime` is: with the next-day marker,
`parse_next_day_time(end) + 1 + minutesBetween(start, "23:59") − 600`; with an
end at or before 18:30, `minutesBetween(start, "18:00") − 570`; with an end
after 18:30, `minutesBetween(start, end) − 600` — a signed value that may be
negative. -/
theorem c1_workday_overtime_branches (start_time : List Char) (s : Nat)
    (hs : TimeParser.parse_time start_time = some s) :
    (∀ end_time nd, hasMarker end_time = true →
        TimeParser.parse_next_day_time end_time = some nd →
        calculate_overtime start_time end_time true =
          some ((nd : Int) + 1 + (1439 - (s : Int)) - 600))
  ∧ (∀ end_time t, hasMarker end_time = false →
        TimeParser.parse_time end_time = some t → t ≤ 1110 →
        calculate_overtime start_time end_time true =
          some (1080 - (s : Int) - 570))
  ∧ (∀ end_time t, hasMarker end_time = false →
        TimeParser.parse_time end_time = some t → 1110 < t →
        calculate_overtime start_time end_time true =
          some ((t : Int) - (s : Int) - 600)) :=
  ⟨fun e nd hm hnd => calculate_overtime_marker start_time e s nd hs hm hnd,
   fun e t hm ht hle => calculate_overtime_flex start_time e s t hs hm ht hle,
   fun e t hm ht hgt => calculate_overtime_after start_time e s t hs hm ht hgt⟩

/-- Witness for C1 at clock-in 08:40: 次日00:30 gives 350, 18:00 gives −10 (a
negative result), 20:00 gives 80. -/
theorem c1_witness :
    calculate_overtime "08:40".data "次日00:30".data true = some 350
  ∧ calculate_overtime "08:40".data "18:00".data true = some (-10)
  ∧ calculate_overtime "08:40".data "20:00".data true = some 80 := by
  obtain ⟨h1, h2, h3⟩ := c1_workday_overtime_branches "08:40".data 520 (by decide)
  refine ⟨?_, ?_, ?_⟩
  · have := h1 "次日00:30".data 30 (by decide) (by decide)
    norm_num at this ⊢
    exact this
  · have := h2 "18:00".data 1080 (by decide) (by decide) (by decide)
    norm_num at this ⊢
    exact this
  · have := h3 "20:00".data 1200 (by decide) (by decide) (by decide)
    norm_num at this ⊢
    exact this

/-- Claim C2 (divergence witness): a record with normal day status, an absent
punch-count label, a parseable first punch and an absent last punch does not
yield the claimed missing-date outcome — `str()` turns the NaN cell into the
string `"nan"`, which defeats the `pd.isna` guard and reaches
`compute_minutes`, whose `strptime` raises, so the whole analysis aborts. -/
theorem c2_absent_end_aborts :
    process_record calE ⟨200⟩ recC2 = none
  ∧ analyze_attendance calE ⟨200⟩ [recC2] = none := by decide

/-- Claim C3: `is_workday` returns false on a holiday; otherwise true on a
compensatory workday; otherwise true exactly on Monday–Friday. -/
theorem c3_is_workday_cases (cal : HolidayCalendar) (d : Date) :
    (d ∈ cal.holidays → cal.is_workday d = false)
  ∧ (d ∉ cal.holidays → d ∈ cal.workdays → cal.is_workday d = true)
  ∧ (d ∉ cal.holidays → d ∉ cal.workdays →
      (cal.is_workday d = true ↔ d.weekday < 5)) := by
  refine ⟨fun h => ?_, fun h1 h2 => ?_, fun h1 h2 => ?_⟩ <;>
    simp [HolidayCalendar.is_workday, *]

/-- Witness for C3 on `calW`: the holiday day 0 (a Monday) is not a workday, the
compensatory day 5 (a Saturday) is, and the plain day 1 follows the weekday
rule. -/
theorem c3_witness :
    calW.is_workday ⟨0⟩ = false
  ∧ calW.is_workday ⟨5⟩ = true
  ∧ (calW.is_workday ⟨1⟩ = true ↔ (Date.mk 1).weekday < 5) :=
  ⟨(c3_is_workday_cases calW ⟨0⟩).1 (by decide),
   (c3_is_workday_cases calW ⟨5⟩).2.1 (by decide) (by decide),
   (c3_is_workday_cases calW ⟨1⟩).2.2 (by decide) (by decide)⟩

/-- Claim C4: for every record set, the missing-clockout list of a returned
`AttendanceResult` is sorted in descending date order and never contains the
current date. -/
theorem c4_missing_sorted_no_today (cal : HolidayCalendar) (today : Date)
    (records : List PunchRecord) (res : AttendanceResult)
    (h : analyze_attendance cal today records = some res) :
    List.Sorted (fun a b : Date => b.day ≤ a.day) res.missing_clockout_dates
  ∧ today ∉ res.missing_clockout_dates := by
  simp only [analyze_attendance] at h
  split at h
  · exact absurd h (by simp)
  · split at h
    · exact absurd h (by simp)
    · rename_i t ht
      injection h with h; subst h
      constructor
      · exact List.sorted_insertionSort dateGE t.missing_clockout
      · simp only [List.mem_insertionSort]
        exact analyze_rows_no_today cal today records initTotals t ht
          (by simp [initTotals])

/-- Witness for C4 on `recsC4` (missing dates collected in ascending order,
returned descending, today = day 200 excluded). -/
theorem c4_witness :
    List.Sorted (fun a b : Date => b.day ≤ a.day) resC4.missing_clockout_dates
  ∧ (⟨200⟩ : Date) ∉ resC4.missing_clockout_dates :=
  c4_missing_sorted_no_today calE ⟨200⟩ recsC4 resC4 (by decide)

/-- Claim C5: a loop step increments the valid-punch-day counter exactly when the
punch-count label is `"2次"` and the date is a workday, or is a non-workday
whose two punch cells are present with distinct stringified values. -/
theorem c5_valid_day_counting (cal : HolidayCalendar) (today : Date) (acc : Totals)
    (r : PunchRecord) (acc2 : Totals) (h : analyze_step cal today acc r = some acc2) :
    acc2.valid_days = acc.valid_days +
      (if (r.punchCount == some TWICE) && (cal.is_workday r.dateObj ||
          (!cal.is_workday r.dateObj && r.startTime.isSome && r.endTime.isSome &&
            (pyStr r.startTime != pyStr r.endTime))) then 1 else 0) := by
  simp only [analyze_step] at h
  split at h
  · exact absurd h (by simp)
  · injection h with h; subst h
    have hvc : valid_day_credit cal r =
        ((r.punchCount == some TWICE) && (cal.is_workday r.dateObj ||
          (!cal.is_workday r.dateObj && r.startTime.isSome && r.endTime.isSome &&
            (pyStr r.startTime != pyStr r.endTime)))) := by
      simp [valid_day_credit, has_actual_punch, Bool.and_assoc]
    simp [hvc]

/-- Witness for C5 on the Saturday record `recD`: distinct 09:00/13:00 punches
with the two-punch label count as a valid punch day (while its overtime is 0,
see the C8 witness). -/
theorem c5_witness :
    totalsD.valid_days = initTotals.valid_days +
      (if (recD.punchCount == some TWICE) && (calE.is_workday recD.dateObj ||
          (!calE.is_workday recD.dateObj && recD.startTime.isSome && recD.endTime.isSome &&
            (pyStr recD.startTime != pyStr recD.endTime))) then 1 else 0) :=
  c5_valid_day_counting calE ⟨200⟩ initTotals recD totalsD (by decide)

/-- Claim C6: when the stringified last punch equals the first-punch string, the
record is classified as in progress — overtime 0, not late, no missing date —
ahead of every status, punch-count and parse check. -/
theorem c6_in_progress_precedence (cal : HolidayCalendar) (today : Date)
    (r : PunchRecord) (s : List Char) (hs : r.startTime = some s)
    (he : pyStr r.endTime = s) :
    process_record cal today r = some ⟨0, false, none⟩ :=
  process_record_in_progress cal today r s hs he

/-- Witness for C6 on `recE`: identical 08:30 punches win over the abnormal
status and one-punch label. -/
theorem c6_witness : process_record calE ⟨200⟩ recE = some ⟨0, false, none⟩ :=
  c6_in_progress_precedence calE ⟨200⟩ recE "08:30".data (by decide) (by decide)

/-- Claim C7: with a parseable first punch of value `t` minutes, `_is_late` holds
exactly on 08:30 < t ≤ 09:30, and the late flag of a normally classified
record holds exactly when additionally the date is a workday. -/
theorem c7_late_rule (s : List Char) (t : Nat)
    (ht : TimeParser.parse_time s = some t) :
    (is_late s = true ↔ (510 < t ∧ t ≤ 570))
  ∧ (∀ (cal : HolidayCalendar) (today : Date) (r : PunchRecord) (o : Outcome),
      r.startTime = some s → pyStr r.endTime ≠ s →
      r.workStatus = some NORMAL →
      (r.punchCount = none ∨ r.punchCount = some TWICE) →
      process_record cal today r = some o →
      (o.late = true ↔ (cal.is_workday r.dateObj = true ∧ 510 < t ∧ t ≤ 570))) := by
  constructor
  · simp [is_late, ht, TimeConfig.WORK_START, TimeConfig.WORK_LATE]
  · intro cal today r o hs hne hst hpc ho
    have hg1 : in_progress_guard r = false := by
      simp [in_progress_guard, hs, hne]
    have hg2 : ((r.workStatus != some NORMAL) ||
        (r.punchCount.isSome && (r.punchCount != some TWICE))) = false := by
      rcases hpc with hpc | hpc <;> simp [hst, hpc]
    simp only [process_record, hg1, hg2, hs, pyStr, Bool.false_eq_true, if_false,
      Option.isNone_some] at ho
    split at ho
    · injection ho with ho; subst ho
      cases hw : cal.is_workday r.dateObj
      · simp [hw]
      · simp [hw, is_late, ht, TimeConfig.WORK_START, TimeConfig.WORK_LATE]
    · exact absurd ho (by simp)

/-- Witness for C7 on `recL`: the 08:40 arrival (520 minutes) on a workday is
flagged late. -/
theorem c7_witness :
    (is_late "08:40".data = true ↔ (510 < 520 ∧ 520 ≤ 570))
  ∧ ((Outcome.mk 20 true none).late = true ↔
      (calE.is_workday recL.dateObj = true ∧ 510 < 520 ∧ 520 ≤ 570)) :=
  ⟨(c7_late_rule "08:40".data 520 (by decide)).1,
   (c7_late_rule "08:40".data 520 (by decide)).2 calE ⟨200⟩ recL ⟨20, true, none⟩
     (by decide) (by decide) (by decide) (Or.inr (by decide)) (by decide)⟩

/-- Claim C8: `_calculate_overtime` returns 0 whenever the workday flag is false,
and a loop step over a non-workday row leaves the overtime total and the late
count unchanged. -/
theorem c8_workday_only_accumulation :
    (∀ start_time end_time, calculate_overtime start_time end_time false = some 0)
  ∧ (∀ (cal : HolidayCalendar) (today : Date) (acc : Totals) (r : PunchRecord)
        (acc2 : Totals), analyze_step cal today acc r = some acc2 →
        cal.is_workday r.dateObj = false →
        acc2.total_overtime = acc.total_overtime ∧ acc2.late_count = acc.late_count) := by
  constructor
  · intro s e
    simp [calculate_overtime]
  · intro cal today acc r acc2 h hw
    simp only [analyze_step] at h
    split at h
    · exact absurd h (by simp)
    · injection h with h; subst h
      simp [hw]

/-- Witness for C8: a 09:00–23:00 non-workday span yields 0 overtime, and the
Saturday record `recD` adds nothing to the overtime total or the late count. -/
theorem c8_witness :
    calculate_overtime "09:00".data "23:00".data false = some 0
  ∧ totalsD.total_overtime = initTotals.total_overtime
  ∧ totalsD.late_count = initTotals.late_count :=
  ⟨c8_workday_only_accumulation.1 "09:00".data "23:00".data,
   (c8_workday_only_accumulation.2 calE ⟨200⟩ initTotals recD totalsD (by decide)
      (by decide)).1,
   (c8_workday_only_accumulation.2 calE ⟨200⟩ initTotals recD totalsD (by decide)
      (by decide)).2⟩

/-- Claim C9: for a fixed parseable clock-in, overtime is monotone in the
clock-out within each branch: clock-outs at or before 18:30, clock-outs after
18:30, and next-day clock-outs. -/
theorem c9_overtime_monotone_in_clockout (start_time : List Char) (s : Nat)
    (hs : TimeParser.parse_time start_time = some s) :
    (∀ e1 e2 t1 t2 o1 o2, hasMarker e1 = false → hasMarker e2 = false →
        TimeParser.parse_time e1 = some t1 → TimeParser.parse_time e2 = some t2 →
        t1 ≤ t2 → t2 ≤ 1110 →
        calculate_overtime start_time e1 true = some o1 →
        calculate_overtime start_time e2 true = some o2 → o1 ≤ o2)
  ∧ (∀ e1 e2 t1 t2 o1 o2, hasMarker e1 = false → hasMarker e2 = false →
        TimeParser.parse_time e1 = some t1 → TimeParser.parse_time e2 = some t2 →
        t1 ≤ t2 → 1110 < t1 →
        calculate_overtime start_time e1 true = some o1 →
        calculate_overtime start_time e2 true = some o2 → o1 ≤ o2)
  ∧ (∀ e1 e2 n1 n2 o1 o2, hasMarker e1 = true → hasMarker e2 = true →
        TimeParser.parse_next_day_time e1 = some n1 →
        TimeParser.parse_next_day_time e2 = some n2 →
        n1 ≤ n2 →
        calculate_overtime start_time e1 true = some o1 →
        calculate_overtime start_time e2 true = some o2 → o1 ≤ o2) := by
  refine ⟨?_, ?_, ?_⟩
  · intro e1 e2 t1 t2 o1 o2 hm1 hm2 ht1 ht2 hle hub h1 h2
    rw [calculate_overtime_flex start_time e1 s t1 hs hm1 ht1 (le_trans hle hub)] at h1
    rw [calculate_overtime_flex start_time e2 s t2 hs hm2 ht2 hub] at h2
    injection h1 with h1; injection h2 with h2
    omega
  · intro e1 e2 t1 t2 o1 o2 hm1 hm2 ht1 ht2 hle hlb h1 h2
    rw [calculate_overtime_after start_time e1 s t1 hs hm1 ht1 hlb] at h1
    rw [calculate_overtime_after start_time e2 s t2 hs hm2 ht2
      (lt_of_lt_of_le hlb hle)] at h2
    injection h1 with h1; injection h2 with h2
    omega
  · intro e1 e2 n1 n2 o1 o2 hm1 hm2 hn1 hn2 hle h1 h2
    rw [calculate_overtime_marker start_time e1 s n1 hs hm1 hn1] at h1
    rw [calculate_overtime_marker start_time e2 s n2 hs hm2 hn2] at h2
    injection h1 with h1; injection h2 with h2
    omega

/-- Witness for C9 in the after-18:30 branch: from clock-in 08:40, clock-out
19:00 gives 20 and the later 20:00 gives 80. -/
theorem c9_witness :
    calculate_overtime "08:40".data "19:00".data true = some 20
  ∧ calculate_overtime "08:40".data "20:00".data true = some 80
  ∧ (20 : Int) ≤ 80 :=
  ⟨by decide, by decide,
    (c9_overtime_monotone_in_clockout "08:40".data 520 (by decide)).2.1
      "19:00".data "20:00".data 1140 1200 20 80 (by decide) (by decide)
      (by decide) (by decide) (by decide) (by decide) (by decide) (by decide)⟩

/-- Claim C10: a workday record with the two-punch label whose punch strings are
identical still earns the valid-day credit, while the rest of the step — which
receives the in-progress outcome — leaves every other total unchanged. -/
theorem c10_in_progress_still_counts (cal : HolidayCalendar) (today : Date)
    (acc : Totals) (r : PunchRecord) (s : List Char)
    (hp : r.punchCount = some TWICE)
    (hw : cal.is_workday r.dateObj = true)
    (hs : r.startTime = some s) (he : pyStr r.endTime = s) :
    analyze_step cal today acc r =
      some ⟨acc.total_overtime, acc.late_count, acc.valid_days + 1,
        acc.missing_clockout⟩ := by
  have hpr := process_record_in_progress cal today r s hs he
  have hvc : valid_day_credit cal r = true := by
    simp [valid_day_credit, hp, hw]
  simp [analyze_step, hpr, hvc, hw]

/-- Witness for C10 on `recP`: the still-open workday record with two identical
08:30 punches increments only the valid-day counter. -/
theorem c10_witness :
    analyze_step calE ⟨200⟩ initTotals recP =
      some ⟨initTotals.total_overtime, initTotals.late_count, initTotals.valid_days + 1,
        initTotals.missing_clockout⟩ :=
  c10_in_progress_still_counts calE ⟨200⟩ initTotals recP "08:30".data (by decide)
    (by decide) (by decide) (by decide)
